import Mathlib

/-!
Verification of `discord_party.py` (the `Party` class): a shallow embedding
of its status mapping, connection lifecycle, size/max pair accessors,
update loop, and the `wait_for_player_join` coordination primitive.

The status mapping `self._status` is a Python dict from string keys to
values that are strings, numbers, or (for `party_size`) a two-element list
of numbers.  We model it as an insertion-ordered association list, matching
Python dict semantics (updating an existing key keeps its position, a new
key is appended at the end).
-/

/-- Exceptions that the modelled code can raise. -/
inductive PyError where
  | keyError (k : String)
  | attributeError
  | invalidPipe
  | typeError
  deriving DecidableEq, Repr

/-- A value stored in `self._status`: a string, an integer, or the
two-element list `[size, max]` stored under the `party_size` key. -/
inductive Value where
  | str (s : String)
  | num (n : Int)
  | pair (a b : Int)
  deriving DecidableEq, Repr

/-- The status mapping `self._status`, as an insertion-ordered association
list (Python dict). -/
def Status := List (String × Value)

instance : DecidableEq Status := by unfold Status; infer_instance

instance : Repr Status := by unfold Status; infer_instance

/-- Dict lookup: `self._status.get(key)` / `self._status[key]` membership. -/
def Status.get : Status → String → Option Value
  | [], _ => none
  | (k', v) :: rest, k => if k' = k then some v else Status.get rest k

/-- Dict assignment `self._status[key] = value`: updating an existing key
keeps its position, a new key is appended at the end. -/
def Status.set : Status → String → Value → Status
  | [], k, v => [(k, v)]
  | (k', v') :: rest, k, v =>
    if k' = k then (k', v) :: rest else (k', v') :: Status.set rest k v

/-- The keys of the mapping, in insertion order. -/
def Status.keys (s : Status) : List String := s.map Prod.fst

/-- The `Party` session state.  `rpc` records whether the connection handle
`self._rpc` is present (`start` sets it to absent on a swallowed connection
failure, `close` sets it to absent).  `updatingLoop` is `self.updating_loop`
(the task handle stored by `update_loop`, or `None`).  `active` is the set
of periodic-update tasks that have been created and not cancelled, and
`nextId` a fresh task identifier; together they model the event loop's view
of which `leloop` tasks are running. -/
structure Party where
  rpc : Bool
  status : Status
  updatingLoop : Option Nat
  active : List Nat
  nextId : Nat
  deriving DecidableEq, Repr

/-- Model of `Party.__init__` (lines 80-101): fresh status containing only the
process identifier, no update loop, connected handle. -/
def Party.init (pid : Int) : Party :=
  { rpc := true
    status := [("pid", Value.num pid)]
    updatingLoop := none
    active := []
    nextId := 0 }

/-- Model of `Party.start` (lines 103-118).  `pipeOk` is whether `self._rpc.start()`
succeeds; on `InvalidPipe` the exception is re-raised when `raiseOnFail`,
otherwise swallowed with `self._rpc = None`. -/
def Party.start (p : Party) (pipeOk : Bool) (raiseOnFail : Bool) :
    Except PyError Party :=
  if pipeOk then Except.ok p
  else if raiseOnFail then Except.error PyError.invalidPipe
  else Except.ok { p with rpc := false }

/-- Model of `Party.__bool__` (lines 120-122): true iff the connection handle is
present. -/
def Party.toBool (p : Party) : Bool := p.rpc

/-- The getter produced by `_status_var` (lines 63-64):
`self._status.get(levar, None)` — `None` when the key is unset, never an
error.  `key` is the storage key `levar` (the field name, or the explicit
`name` argument: `start` for `start_time`, `end` for `end_time`). -/
def Party.getField (p : Party) (key : String) : Option Value :=
  p.status.get key

/-- The setter produced by `_status_var` (lines 67-68):
`self._status[levar] = value`. -/
def Party.setField (p : Party) (key : String) (v : Value) : Party :=
  { p with status := p.status.set key v }

/-- The `size` getter (lines 185-188): `self._status['party_size'][0]`.
An absent key is a `KeyError`; indexing a stored non-list value would be a
`TypeError` (unreachable: only the size/max setters write this key). -/
def Party.getSize (p : Party) : Except PyError Int :=
  match p.status.get "party_size" with
  | some (Value.pair a _) => Except.ok a
  | some _ => Except.error PyError.typeError
  | none => Except.error (PyError.keyError "party_size")

/-- The `max` getter (lines 199-202): `self._status['party_size'][1]`. -/
def Party.getMax (p : Party) : Except PyError Int :=
  match p.status.get "party_size" with
  | some (Value.pair _ b) => Except.ok b
  | some _ => Except.error PyError.typeError
  | none => Except.error (PyError.keyError "party_size")

/-- The `size` setter (lines 190-195): if `party_size` is absent, store
`[value, value]`; otherwise overwrite only index 0.  The non-list branch is
unreachable (only these setters write the key) and leaves the stored value
unchanged. -/
def Status.setSize (s : Status) (v : Int) : Status :=
  match s.get "party_size" with
  | none => s.set "party_size" (Value.pair v v)
  | some (Value.pair _ b) => s.set "party_size" (Value.pair v b)
  | some w => s.set "party_size" w

/-- The `max` setter (lines 204-209): if `party_size` is absent, store
`[value, value]`; otherwise overwrite only index 1. -/
def Status.setMax (s : Status) (v : Int) : Status :=
  match s.get "party_size" with
  | none => s.set "party_size" (Value.pair v v)
  | some (Value.pair a _) => s.set "party_size" (Value.pair a v)
  | some w => s.set "party_size" w

/-- The `size` setter lifted to the session. -/
def Party.setSize (p : Party) (v : Int) : Party :=
  { p with status := p.status.setSize v }

/-- The `max` setter lifted to the session. -/
def Party.setMax (p : Party) (v : Int) : Party :=
  { p with status := p.status.setMax v }

/-- Model of `Party.update` (lines 217-220): when the handle is present, transmit
the full status mapping (`set_activity(**self._status)`) and return the
transmitted snapshot; when absent, transmit nothing (a silent no-op).
Returns the payload sent to the peer, `none` when nothing was sent; it
never raises. -/
def Party.update (p : Party) : Option Status :=
  if p.rpc then some p.status else none

/-- Model of `Party.update_loop` (lines 222-232): create a new `leloop` task and
store its handle in `self.updating_loop`.  The previous task, if any, is
neither cancelled nor awaited — only the stored reference is replaced. -/
def Party.updateLoop (p : Party) : Party :=
  { p with
    active := p.active ++ [p.nextId]
    updatingLoop := some p.nextId
    nextId := p.nextId + 1 }

/-- Model of `Party.stop_updating_loop` (lines 234-237): cancel the task currently
referenced by `self.updating_loop`, if any. -/
def Party.stopUpdatingLoop (p : Party) : Party :=
  match p.updatingLoop with
  | none => p
  | some t => { p with active := p.active.erase t }

/-- An operation in a sequence of size/max assignments. -/
inductive SMOp where
  | setSize (v : Int)
  | setMax (v : Int)
  deriving DecidableEq, Repr

/-- The value carried by a size/max assignment. -/
def SMOp.val : SMOp → Int
  | SMOp.setSize v => v
  | SMOp.setMax v => v

/-- Apply one size/max assignment to the status mapping. -/
def applyOp (s : Status) : SMOp → Status
  | SMOp.setSize v => s.setSize v
  | SMOp.setMax v => s.setMax v

/-- Apply a sequence of size/max assignments to the status mapping, in
order. -/
def applyOps (s : Status) : List SMOp → Status
  | [] => s
  | op :: rest => applyOps (applyOp s op) rest

/-- Apply a sequence of size/max assignments to a session through the
`size`/`max` setters, in order. -/
def Party.applySM : Party → List SMOp → Party
  | p, [] => p
  | p, SMOp.setSize v :: rest => (p.setSize v).applySM rest
  | p, SMOp.setMax v :: rest => (p.setMax v).applySM rest

/-- The value of the last `setSize` in the sequence, if any. -/
def lastSize : List SMOp → Option Int
  | [] => none
  | SMOp.setSize v :: rest => some ((lastSize rest).getD v)
  | SMOp.setMax _ :: rest => lastSize rest

/-- The value of the last `setMax` in the sequence, if any. -/
def lastMax : List SMOp → Option Int
  | [] => none
  | SMOp.setSize _ :: rest => lastMax rest
  | SMOp.setMax v :: rest => some ((lastMax rest).getD v)

/-- The scenario of C4: construct a session, then set
`state = "Looking for Players"`, `id = 42`, `join = "abc"`, `size = 1`,
`max = 4` through the accessors.  `id` is an alias of `party_id`
(line 129), so it stores under the key `party_id`; `join` stores under
`join`. -/
def Party.scenarioC4 (pid : Int) : Party :=
  ((((Party.init pid).setField "state"
      (Value.str "Looking for Players")).setField "party_id"
      (Value.num 42)).setField "join" (Value.str "abc")).setSize 1 |>.setMax 4

/-!
## The `wait_for_player_join` coordination primitive (lines 239-266)

The event loop is single-threaded and cooperative: `create_task` only
schedules a task, which first runs when the creating coroutine reaches a
suspension point.  We model one execution of `wait_for_player_join` on a
connected session as the sequence of primitive actions it performs,
interleaved according to those semantics:

  1. lines 248-262 run synchronously in the calling coroutine (awaiting
     `self.update()` completes the status push; `on_player_join` at line
     272 only schedules the `register_event` coroutine as a task; line 262
     schedules the `meantime` task);
  2. the coroutine suspends at `await fut` (line 263) — this is where the
     wait begins;
  3. the scheduled `register_event` task (lines 44-49) then runs: it
     awaits `subscribe` and installs the handler into `_events`;
  4. either the awaited event arrives with some payload, in which case the
     installed handler (lines 251-252) resolves the future with
     `secret['secret']` and the coroutine resumes at line 264 (cancel the
     `meantime` task, unregister the handler, return the secret), or the
     outer coroutine is itself cancelled while suspended at line 263, in
     which case `CancelledError` propagates immediately — there is no
     `try`/`finally` around `await fut`, so lines 264-265 do not run.
-/

/-- A primitive action performed during one run of `wait_for_player_join`. -/
inductive WAction where
  | statusPush
  | createFuture
  | scheduleRegisterTask
  | scheduleMeantimeTask
  | beginAwaitFuture
  | subscribeComplete
  | handlerInstalled
  | futureResolved (v : String)
  | handlerRaised (e : PyError)
  | cancelMeantime
  | unregisterHandler
  | returnValue (v : String)
  | raiseCancelled
  deriving DecidableEq, Repr

/-- An event payload: a mapping from field names to strings. -/
def Payload := List (String × String)

instance : DecidableEq Payload := by unfold Payload; infer_instance

/-- Payload field lookup. -/
def Payload.get : Payload → String → Option String
  | [], _ => none
  | (k', v) :: rest, k => if k' = k then some v else Payload.get rest k

/-- The handler registered at lines 250-252:
`fut.set_result(secret['secret'])` — extracts the `secret` field from the
event payload; a missing field is a `KeyError` on the subscript. -/
def joinHandler (p : Payload) : Except PyError String :=
  match p.get "secret" with
  | some s => Except.ok s
  | none => Except.error (PyError.keyError "secret")

/-- The synchronous prologue of `wait_for_player_join` (lines 248-262),
executed before the coroutine first suspends at `await fut`. -/
def waitPrologue : List WAction :=
  [WAction.statusPush, WAction.createFuture, WAction.scheduleRegisterTask,
   WAction.scheduleMeantimeTask]

/-- The body of the scheduled `register_event` task (lines 44-49): await
`subscribe`, then install the handler into `_events`.  It runs only once
the calling coroutine has suspended. -/
def registerBody : List WAction :=
  [WAction.subscribeComplete, WAction.handlerInstalled]

/-- The full action trace of `wait_for_player_join` on a connected session
when the awaited event arrives with payload `p` while the coroutine is
suspended: prologue, suspension, registration task, handler invocation,
then — only because the future resolved — the cleanup of lines 264-265 and
the return of the secret. -/
def waitTraceEvent (p : Payload) : List WAction :=
  waitPrologue ++ [WAction.beginAwaitFuture] ++ registerBody ++
    (match joinHandler p with
     | Except.ok s =>
       [WAction.futureResolved s, WAction.cancelMeantime,
        WAction.unregisterHandler, WAction.returnValue s]
     | Except.error e => [WAction.handlerRaised e])

/-- The full action trace of `wait_for_player_join` on a connected session
when the *outer* coroutine is cancelled while suspended at `await fut`
(line 263): `CancelledError` propagates from the `await`, and — since no
`try`/`finally` encloses it — lines 264-265 (cancel the `meantime` task,
unregister the handler) never execute. -/
def waitTraceCancelled : List WAction :=
  waitPrologue ++ [WAction.beginAwaitFuture] ++ registerBody ++
    [WAction.raiseCancelled]

/-- The attempt to run `wait_for_player_join` up to its first suspension
point.  Line 248 awaits `self.update()`, a silent no-op on a disconnected
session; but line 250 applies `on_player_join`, whose body (line 272)
evaluates `self._rpc.register_event` — on a disconnected session `_rpc`
is `None`, so the attribute access raises `AttributeError` before any task
is created. -/
def Party.waitAttempt (p : Party) : Except PyError (List WAction) :=
  if p.rpc then Except.ok waitPrologue
  else Except.error PyError.attributeError

/-!
## Timing of the `meantime` task (lines 254-261)

The `meantime` coroutine defined inside `wait_for_player_join` consists of
the statements: invoke `meanwhile()` (awaiting the result if awaitable),
then `await asyncio.sleep(delay)`, then return.  There is **no loop**
around these statements — contrast `leloop` inside `update_loop`
(lines 224-230), whose body is wrapped in `while 1`.  We model a task body
as a list of timed steps and compute the absolute times at which the
callback is invoked.
-/

/-- One primitive step of a background-task body. -/
inductive TStep where
  | callCb
  | sleepFor (d : ℚ)
  deriving DecidableEq, Repr

/-- The body of `meantime` (lines 254-261), in program order: invoke the
callback once, sleep `delay` seconds, return.  No loop. -/
def meantimeSteps (delay : ℚ) : List TStep :=
  [TStep.callCb, TStep.sleepFor delay]

/-- The absolute times at which a task body invokes the callback, when the
task starts executing at time `t0` and is cancelled at time `cutoff`
(a step scheduled to begin at or after `cutoff` does not run; the
`CancelledError` is caught by the body's `try`/`except` and absorbed). -/
def callTimes (t0 cutoff : ℚ) : List TStep → List ℚ
  | [] => []
  | TStep.callCb :: rest =>
    if t0 < cutoff then t0 :: callTimes t0 cutoff rest else []
  | TStep.sleepFor d :: rest =>
    if t0 < cutoff then callTimes (t0 + d) cutoff rest else []

/-- Whether an action resolves the pending future. -/
def isResolve : WAction → Bool
  | WAction.futureResolved _ => true
  | _ => false

/-!
## Helper lemmas
-/

theorem Status.get_set_self (s : Status) (k : String) (v : Value) :
    (s.set k v).get k = some v := by
  induction s with
  | nil => simp [Status.set, Status.get]
  | cons hd tl ih =>
    obtain ⟨k', v'⟩ := hd
    by_cases h : k' = k
    · simp [Status.set, Status.get, h]
    · simp [Status.set, Status.get, h, ih]

theorem applySM_status (p : Party) (ops : List SMOp) :
    (p.applySM ops).status = applyOps p.status ops := by
  induction ops generalizing p with
  | nil => rfl
  | cons op rest ih =>
    cases op <;>
      simp [Party.applySM, applyOps, applyOp, Party.setSize, Party.setMax, ih]

theorem applyOps_get_pair (ops : List SMOp) (s : Status) (a b : Int)
    (h : s.get "party_size" = some (Value.pair a b)) :
    (applyOps s ops).get "party_size" =
      some (Value.pair ((lastSize ops).getD a) ((lastMax ops).getD b)) := by
  induction ops generalizing s a b with
  | nil => simpa [applyOps, lastSize, lastMax] using h
  | cons op rest ih =>
    cases op with
    | setSize v =>
      have hs : (s.setSize v).get "party_size" = some (Value.pair v b) := by
        simp [Status.setSize, h, Status.get_set_self]
      simpa [applyOps, applyOp, lastSize, lastMax] using ih (s.setSize v) v b hs
    | setMax v =>
      have hs : (s.setMax v).get "party_size" = some (Value.pair a v) := by
        simp [Status.setMax, h, Status.get_set_self]
      simpa [applyOps, applyOp, lastSize, lastMax] using ih (s.setMax v) a v hs

theorem applyOps_get_first (op : SMOp) (ops : List SMOp) (s : Status)
    (h : s.get "party_size" = none) :
    (applyOps s (op :: ops)).get "party_size" =
      some (Value.pair ((lastSize (op :: ops)).getD op.val)
                       ((lastMax (op :: ops)).getD op.val)) := by
  cases op with
  | setSize v =>
    have hs : (s.setSize v).get "party_size" = some (Value.pair v v) := by
      simp [Status.setSize, h, Status.get_set_self]
    simpa [applyOps, applyOp, lastSize, lastMax, SMOp.val] using
      applyOps_get_pair ops (s.setSize v) v v hs
  | setMax v =>
    have hs : (s.setMax v).get "party_size" = some (Value.pair v v) := by
      simp [Status.setMax, h, Status.get_set_self]
    simpa [applyOps, applyOp, lastSize, lastMax, SMOp.val] using
      applyOps_get_pair ops (s.setMax v) v v hs

/-!
## Claims
-/

/-- C9: if `start()` fails with `InvalidPipe`, then with
`raise_on_fail = False` (the default) the exception is swallowed, the
connection handle becomes absent and `bool(session)` is thereafter false;
with `raise_on_fail = True` the exception propagates to the caller. -/
theorem C9_start_failure_policy (p : Party) :
    (p.start false false = Except.ok { p with rpc := false } ∧
      Party.toBool { p with rpc := false } = false) ∧
    p.start false true = Except.error PyError.invalidPipe :=
  ⟨⟨rfl, rfl⟩, rfl⟩

/-- C10: on a fresh session, reading `size` or `max` raises a
missing-key error, while reading any other status field returns the unset
value `None` without raising. -/
theorem C10_unset_reads (pid : Int) :
    (Party.init pid).getSize = Except.error (PyError.keyError "party_size") ∧
    (Party.init pid).getMax = Except.error (PyError.keyError "party_size") ∧
    (["party_id", "join", "spectate", "state", "details", "start", "end",
      "large_image", "large_text", "small_image", "small_text"].all
        (fun k => ((Party.init pid).getField k).isNone)) = true :=
  ⟨rfl, rfl, rfl⟩

/-- C4 counterexample: in the C4 scenario the transmitted snapshot also
contains the process-identifier entry `pid`, which is none of the five set
keys (under any of their names), so the snapshot does not consist of
exactly those five keys. -/
theorem C4_counterexample :
    (Party.scenarioC4 7).update =
      some [("pid", Value.num 7), ("state", Value.str "Looking for Players"),
            ("party_id", Value.num 42), ("join", Value.str "abc"),
            ("party_size", Value.pair 1 4)] ∧
    "pid" ∈ ((Party.scenarioC4 7).update.getD []).keys ∧
    "pid" ∉ ["state", "id", "party_id", "join", "size", "max", "party_size"] := by
  decide

/-- C4 (amended): the transmitted snapshot of the C4 scenario contains the
five set fields with exactly the set values — `state`, `id` (stored under
`party_id`), `join`, and `size`/`max` as the single paired entry
`party_size = [1, 4]` — plus the process-identifier entry `pid` added at
construction, and nothing else. -/
theorem C4_snapshot (pid : Int) :
    (Party.scenarioC4 pid).update =
      some [("pid", Value.num pid),
            ("state", Value.str "Looking for Players"),
            ("party_id", Value.num 42), ("join", Value.str "abc"),
            ("party_size", Value.pair 1 4)] := rfl

/-- C6: setting one of size/max before the other initializes the stored
pair to `[value, value]`; each subsequent setter overwrites only its own
half; reading size (resp. max) after any sequence of sets returns the most
recently set value for that half; `size=5` then `max=10` on a fresh
session yields the pair `[5, 10]`, and `max=10` alone yields `[10, 10]`. -/
theorem C6_size_max_last_write_wins :
    (∀ (pid : Int) (ops : List SMOp) (v : Int), lastSize ops = some v →
      ((Party.init pid).applySM ops).getSize = Except.ok v) ∧
    (∀ (pid : Int) (ops : List SMOp) (v : Int), lastMax ops = some v →
      ((Party.init pid).applySM ops).getMax = Except.ok v) ∧
    (∀ (pid v : Int),
      ((Party.init pid).setSize v).status.get "party_size" =
        some (Value.pair v v) ∧
      ((Party.init pid).setMax v).status.get "party_size" =
        some (Value.pair v v)) ∧
    (∀ (s : Status) (a b v : Int),
      s.get "party_size" = some (Value.pair a b) →
      (s.setSize v).get "party_size" = some (Value.pair v b) ∧
      (s.setMax v).get "party_size" = some (Value.pair a v)) ∧
    (∀ pid : Int,
      (((Party.init pid).setSize 5).setMax 10).status.get "party_size" =
        some (Value.pair 5 10)) ∧
    (∀ pid : Int,
      ((Party.init pid).setMax 10).status.get "party_size" =
        some (Value.pair 10 10) ∧
      ((Party.init pid).setMax 10).getSize = Except.ok 10) := by
  refine ⟨?_, ?_, ?_, ?_, ?_, ?_⟩
  · intro pid ops v h
    cases ops with
    | nil => simp [lastSize] at h
    | cons op rest =>
      have h0 : (Party.init pid).status.get "party_size" = none := rfl
      have hget := applyOps_get_first op rest (Party.init pid).status h0
      rw [h] at hget
      simp [Party.getSize, applySM_status, hget]
  · intro pid ops v h
    cases ops with
    | nil => simp [lastMax] at h
    | cons op rest =>
      have h0 : (Party.init pid).status.get "party_size" = none := rfl
      have hget := applyOps_get_first op rest (Party.init pid).status h0
      rw [h] at hget
      simp [Party.getMax, applySM_status, hget]
  · intro pid v
    exact ⟨rfl, rfl⟩
  · intro s a b v h
    constructor
    · simp [Status.setSize, h, Status.get_set_self]
    · simp [Status.setMax, h, Status.get_set_self]
  · intro pid
    rfl
  · intro pid
    exact ⟨rfl, rfl⟩

/-- Witness for C6 at concrete inputs. -/
theorem C6_size_max_witness :
    ((Party.init 0).applySM [SMOp.setSize 5, SMOp.setMax 10]).getSize =
      Except.ok 5 ∧
    ((Party.init 0).applySM [SMOp.setSize 5, SMOp.setMax 10]).getMax =
      Except.ok 10 ∧
    Status.get (Status.setSize [("party_size", Value.pair 1 2)] 9)
      "party_size" = some (Value.pair 9 2) :=
  ⟨C6_size_max_last_write_wins.1 0 [SMOp.setSize 5, SMOp.setMax 10] 5
      (by decide),
   C6_size_max_last_write_wins.2.1 0 [SMOp.setSize 5, SMOp.setMax 10] 10
      (by decide),
   (C6_size_max_last_write_wins.2.2.2.1 [("party_size", Value.pair 1 2)]
      1 2 9 (by decide)).1⟩

/-- C1: with `delay = 0.5` and the triggering event arriving after 1.6
simulated seconds, the `meantime` task invokes the callback exactly once —
not at least twice — because its body (lines 254-261) invokes the callback
once and then returns: there is no loop, contrary to the docstrings
(module line 20, method lines 245-246), which promise a call every `delay`
seconds. -/
theorem C1_meantime_single_invocation :
    (callTimes 0 (16/10) (meantimeSteps (5/10))).length = 1 ∧
    ¬ 2 ≤ (callTimes 0 (16/10) (meantimeSteps (5/10))).length := by
  constructor
  · norm_num [callTimes, meantimeSteps]
  · norm_num [callTimes, meantimeSteps]

/-- C2 counterexample: when the outer wait is cancelled while suspended at
`await fut`, neither cleanup step occurs in the trace — the `meantime`
task is never cancelled and the handler is never unregistered — and the
`CancelledError` is the trace's final action. -/
theorem C2_counterexample :
    WAction.cancelMeantime ∉ waitTraceCancelled ∧
    WAction.unregisterHandler ∉ waitTraceCancelled ∧
    waitTraceCancelled.getLast? = some WAction.raiseCancelled := by
  decide

/-- C2 (amended): cleanup is contingent on event arrival.  If the outer
wait is cancelled before the event, the cancellation propagates directly
from `await fut` (line 263, which no `try`/`finally` encloses): the
periodic task is not cancelled by the wait and the event handler remains
registered.  Only on the event-arrival path do both cleanup steps run. -/
theorem C2_cleanup_only_on_event :
    (waitTraceCancelled.getLast? = some WAction.raiseCancelled ∧
      WAction.cancelMeantime ∉ waitTraceCancelled ∧
      WAction.unregisterHandler ∉ waitTraceCancelled) ∧
    ∀ (p : Payload) (s : String), p.get "secret" = some s →
      WAction.cancelMeantime ∈ waitTraceEvent p ∧
      WAction.unregisterHandler ∈ waitTraceEvent p := by
  refine ⟨by decide, ?_⟩
  intro p s h
  have hj : joinHandler p = Except.ok s := by simp [joinHandler, h]
  constructor <;> simp [waitTraceEvent, waitPrologue, registerBody, hj]

/-- Witness for C2's amended statement at a concrete payload. -/
theorem C2_cleanup_witness :
    WAction.cancelMeantime ∈ waitTraceEvent [("secret", "s")] ∧
    WAction.unregisterHandler ∈ waitTraceEvent [("secret", "s")] :=
  C2_cleanup_only_on_event.2 [("secret", "s")] "s" (by decide)

/-- C3: on a disconnected session (here: one whose `start` swallowed an
`InvalidPipe`), `update` transmits nothing and raises nothing, as does
each tick of the `update_loop` task; but `wait_for_player_join` is not a
silent no-op — it raises `AttributeError` when line 272 evaluates
`self._rpc.register_event` on the absent handle, contradicting the
documented contract of `start` (lines 107-111: "future operations will
silently become no-ops"). -/
theorem C3_disconnected_wait_raises :
    (Party.init 0).start false false =
      Except.ok { Party.init 0 with rpc := false } ∧
    Party.update { Party.init 0 with rpc := false } = none ∧
    Party.update (Party.updateLoop { Party.init 0 with rpc := false }) =
      none ∧
    Party.waitAttempt { Party.init 0 with rpc := false } =
      Except.error PyError.attributeError :=
  ⟨rfl, rfl, rfl, rfl⟩

/-- C5 counterexample: two consecutive `update_loop` calls on a fresh
session leave two periodic-update tasks active — the first is never
cancelled, so two loops run concurrently. -/
theorem C5_counterexample :
    ((Party.init 0).updateLoop.updateLoop).active = [0, 1] ∧
    ¬ ((Party.init 0).updateLoop.updateLoop).active.length ≤ 1 := by
  decide

/-- C5 (amended): calling `update_loop` while a previous periodic-update
task is still active does not cancel it — only the stored reference is
replaced — so the previous task stays active alongside the new one, and a
subsequent `stop_updating_loop` cancels only the most recent task, leaving
the earlier one running. -/
theorem C5_previous_loop_not_cancelled (p : Party) (t : Nat)
    (_hs : p.updatingLoop = some t) (h2 : t ∈ p.active)
    (h3 : ∀ u ∈ p.active, u < p.nextId) :
    t ∈ p.updateLoop.active ∧ p.nextId ∈ p.updateLoop.active ∧
    t ≠ p.nextId ∧ t ∈ p.updateLoop.stopUpdatingLoop.active := by
  have hne : t ≠ p.nextId := Nat.ne_of_lt (h3 t h2)
  refine ⟨?_, ?_, hne, ?_⟩
  · simp [Party.updateLoop, h2]
  · simp [Party.updateLoop]
  · simp only [Party.stopUpdatingLoop, Party.updateLoop]
    rw [List.mem_erase_of_ne hne]
    exact List.mem_append_left _ h2

/-- Witness for C5's amended statement on a fresh session with one loop
already started. -/
theorem C5_witness :
    0 ∈ (Party.init 0).updateLoop.updateLoop.active ∧
    1 ∈ (Party.init 0).updateLoop.updateLoop.active ∧
    (0 : Nat) ≠ 1 ∧
    0 ∈ (Party.init 0).updateLoop.updateLoop.stopUpdatingLoop.active :=
  C5_previous_loop_not_cancelled ((Party.init 0).updateLoop) 0
    (by decide) (by decide) (by decide)

/-- C7 counterexample: in the event-arrival trace, the handler is
installed (registration completes) only *after* the coroutine has begun
awaiting the future — the registration task is scheduled, not awaited,
before the wait begins. -/
theorem C7_counterexample :
    ¬ ((waitTraceEvent [("secret", "s")]).indexOf WAction.handlerInstalled <
       (waitTraceEvent [("secret", "s")]).indexOf
         WAction.beginAwaitFuture) := by
  decide

/-- C7 (amended): the initial status push completes before the wait
begins, and the handler-registration task is scheduled before the wait
begins; but registration *completes* (the handler is installed) only after
the coroutine suspends at `await fut`.  The future is nevertheless never
resolved before the handler is installed, since resolution happens only
through the installed handler. -/
theorem C7_push_before_wait_registration_after (p : Payload) :
    (waitTraceEvent p).indexOf WAction.statusPush <
      (waitTraceEvent p).indexOf WAction.beginAwaitFuture ∧
    (waitTraceEvent p).indexOf WAction.scheduleRegisterTask <
      (waitTraceEvent p).indexOf WAction.beginAwaitFuture ∧
    (waitTraceEvent p).indexOf WAction.beginAwaitFuture <
      (waitTraceEvent p).indexOf WAction.handlerInstalled ∧
    ((waitTraceEvent p).take 7).all (fun a => !(isResolve a)) = true := by
  have h1 : (waitTraceEvent p).indexOf WAction.statusPush = 0 := rfl
  have h2 : (waitTraceEvent p).indexOf WAction.beginAwaitFuture = 4 := rfl
  have h3 : (waitTraceEvent p).indexOf WAction.scheduleRegisterTask = 2 := rfl
  have h4 : (waitTraceEvent p).indexOf WAction.handlerInstalled = 6 := rfl
  refine ⟨?_, ?_, ?_, rfl⟩
  · rw [h1, h2]; norm_num
  · rw [h3, h2]; norm_num
  · rw [h2, h4]; norm_num

/-- C8: when the awaited join event arrives with a payload carrying secret
`s`, the pending future is resolved exactly once, with `s`, and `s` is
returned to the caller as the trace's final action. -/
theorem C8_resolves_once_with_secret (p : Payload) (s : String)
    (h : p.get "secret" = some s) :
    (waitTraceEvent p).countP isResolve = 1 ∧
    WAction.futureResolved s ∈ waitTraceEvent p ∧
    (waitTraceEvent p).getLast? = some (WAction.returnValue s) := by
  have hj : joinHandler p = Except.ok s := by simp [joinHandler, h]
  have ht : waitTraceEvent p =
      waitPrologue ++ [WAction.beginAwaitFuture] ++ registerBody ++
        [WAction.futureResolved s, WAction.cancelMeantime,
         WAction.unregisterHandler, WAction.returnValue s] := by
    rw [waitTraceEvent, hj]
  rw [ht]
  refine ⟨rfl, by simp [waitPrologue, registerBody], rfl⟩

/-- Witness for C8 at a concrete payload. -/
theorem C8_witness :
    (waitTraceEvent [("secret", "abc")]).countP isResolve = 1 ∧
    WAction.futureResolved "abc" ∈ waitTraceEvent [("secret", "abc")] ∧
    (waitTraceEvent [("secret", "abc")]).getLast? =
      some (WAction.returnValue "abc") :=
  C8_resolves_once_with_secret [("secret", "abc")] "abc" (by decide)
